import Mathlib

/-!
Verification of the client-side session/progress tracking logic of the
ARQV30 Enhanced v3.0 front end.  Each definition below is a shallow
embedding of one JavaScript function from the repository; the file and
line numbers of the source are given in the doc comments.  JavaScript
numbers that only ever hold small integers are modelled as `Int` or
`Nat`, JS arrays as `List`, `Map`/`localStorage` registries as
association lists keyed by `String`, and `null`/`undefined` as
`Option`.  Fetch calls are modelled by passing the (possible) response
as an explicit parameter, with `none` standing for a transport failure
(the `catch` path).
-/

/-- Embedding of `canContinueFromStep(step, completedSteps)` from the
session manager (src/unnamed/part_000, lines 202-207).  The JS uses
strict equality on the step number and `completedSteps.includes`. -/
def canContinueFromStep (step : Int) (completedSteps : List Int) : Bool :=
  if step = 1 then true
  else if step = 2 then completedSteps.contains 1
  else if step = 3 then completedSteps.contains 1 && completedSteps.contains 2
  else false

theorem contains_int_iff (l : List Int) (a : Int) :
    l.contains a = true ↔ a ∈ l := by
  simp [List.contains, List.elem_iff]

/-- C1: the Step Gate is a pure function of (step, completed steps);
step 1 is always resumable, and a step k with 1 < k ≤ 3 is resumable
iff every step in 1..k-1 is a member of the completed list; the five
concrete cases of the spec hold. -/
theorem canContinueFromStep_spec (completedSteps : List Int) :
    canContinueFromStep 1 completedSteps = true ∧
    (∀ k : Int, 1 < k → k ≤ 3 →
      (canContinueFromStep k completedSteps = true ↔
        ∀ j : Int, 1 ≤ j → j ≤ k - 1 → j ∈ completedSteps)) ∧
    canContinueFromStep 2 [1] = true ∧
    canContinueFromStep 2 [] = false ∧
    canContinueFromStep 3 [1, 2] = true ∧
    canContinueFromStep 3 [1] = false := by
  refine ⟨rfl, ?_, by decide, by decide, by decide, by decide⟩
  intro k hk1 hk3
  have hk : k = 2 ∨ k = 3 := by omega
  rcases hk with hk | hk
  · subst hk
    rw [show canContinueFromStep 2 completedSteps = completedSteps.contains 1 from rfl]
    rw [contains_int_iff]
    constructor
    · intro h j hj1 hj2
      have : j = 1 := by omega
      simpa [this] using h
    · intro h
      exact h 1 (by norm_num) (by norm_num)
  · subst hk
    rw [show canContinueFromStep 3 completedSteps
        = (completedSteps.contains 1 && completedSteps.contains 2) from rfl]
    rw [Bool.and_eq_true, contains_int_iff, contains_int_iff]
    constructor
    · intro h j hj1 hj2
      have : j = 1 ∨ j = 2 := by omega
      rcases this with hj | hj <;> simp [hj, h.1, h.2]
    · intro h
      exact ⟨h 1 (by norm_num) (by norm_num), h 2 (by norm_num) (by norm_num)⟩

theorem canContinueFromStep_spec_witness :
    canContinueFromStep 3 [1, 2] = true ↔
      (∀ j : Int, 1 ≤ j → j ≤ 3 - 1 → j ∈ ([1, 2] : List Int)) :=
  (canContinueFromStep_spec [1, 2]).2.1 3 (by norm_num) (by norm_num)

/-- C10: the step gate is total over the integers and returns false for
every step outside 1..3, whatever the completed list holds. -/
theorem canContinueFromStep_out_of_range (step : Int) (completedSteps : List Int)
    (h : step < 1 ∨ 3 < step) :
    canContinueFromStep step completedSteps = false := by
  unfold canContinueFromStep
  rw [if_neg (by omega), if_neg (by omega), if_neg (by omega)]

theorem canContinueFromStep_out_of_range_witness :
    ((0 : Int) < 1 ∨ 3 < (0 : Int)) ∧
      canContinueFromStep 0 [1, 2, 3] = false :=
  ⟨Or.inl (by norm_num),
    canContinueFromStep_out_of_range 0 [1, 2, 3] (Or.inl (by norm_num))⟩

/-- State of the `ModernAnalysisSystem` poller together with the piece
of browser runtime it touches (src/src/static/js/analysis.js).
`currentSessionId` and `progressInterval` are the instance fields of
the class; `liveTimers` is the set of interval timers the runtime
currently has armed (a `setInterval` call arms a fresh handle,
`clearInterval` disarms it); `marker` is the durable
`localStorage.currentSessionId` item; `notices` collects the
`showNotification(message, severity)` calls in order. -/
structure MonitorState where
  currentSessionId : Option String
  progressInterval : Option Nat
  liveTimers : List Nat
  nextHandle : Nat
  marker : Option String
  notices : List (String × String)
deriving DecidableEq

def initialMonitorState : MonitorState :=
  ⟨none, none, [], 0, none, []⟩

/-- Embedding of `ModernAnalysisSystem.startProgressMonitoring`
(analysis.js lines 734-770): bails out when no current session is set,
otherwise arms a new interval timer and stores its handle in
`this.progressInterval` — without clearing any previously stored
handle. -/
def startProgressMonitoring (s : MonitorState) : MonitorState :=
  match s.currentSessionId with
  | none => s
  | some _ =>
      { s with
        progressInterval := some s.nextHandle
        liveTimers := s.liveTimers ++ [s.nextHandle]
        nextHandle := s.nextHandle + 1 }

/-- Embedding of `ModernAnalysisSystem.stopProgressMonitoring`
(analysis.js lines 772-777): clears the interval whose handle is held
in `this.progressInterval`, if any, and nulls the field. -/
def stopProgressMonitoring (s : MonitorState) : MonitorState :=
  match s.progressInterval with
  | none => s
  | some h =>
      { s with
        progressInterval := none
        liveTimers := s.liveTimers.filter (fun t => t != h) }

/-- Embedding of the success path of
`ModernAnalysisSystem.continueSession(sessionId)` (analysis.js lines
517-543): on a successful gateway response it sets
`this.currentSessionId`, writes the `currentSessionId` localStorage
marker, emits a success notification and calls
`startProgressMonitoring`. -/
def continueSessionSuccess (sid : String) (s : MonitorState) : MonitorState :=
  startProgressMonitoring
    { s with
      currentSessionId := some sid
      marker := some sid
      notices := s.notices ++ [("Sessão continuada com sucesso", "success")] }

/-- One JSON body returned by `GET /api/progress/{id}` as read by the
interval callback of `startProgressMonitoring`: the fields the
callback branches on. -/
structure MonitorData where
  success : Bool
  completed : Bool
  error : Option String
deriving DecidableEq

/-- Embedding of one tick of the interval callback armed by
`startProgressMonitoring` (analysis.js lines 737-769).  The argument
`d` is the parsed poll response, `none` when the fetch or JSON parse
threw (the `catch` branch, which only logs).  On `data.success` with
`data.completed` it stops the interval, emits the terminal success
notification and removes the `currentSessionId` localStorage item; on
`data.error` it stops the interval and emits an error notification;
otherwise the tick leaves the state unchanged. -/
def monitorTickFull (s : MonitorState) (d : Option MonitorData) : MonitorState :=
  match d with
  | none => s
  | some d =>
      if d.success then
        if d.completed then
          let s1 := stopProgressMonitoring s
          { s1 with
            notices := s1.notices ++ [("Análise concluída com sucesso!", "success")]
            marker := none }
        else s
      else
        match d.error with
        | some e =>
            let s1 := stopProgressMonitoring s
            { s1 with notices := s1.notices ++ [("Erro: " ++ e, "error")] }
        | none => s

/-- A tick can only fire while some interval timer is armed. -/
def canTick (s : MonitorState) : Bool :=
  !s.liveTimers.isEmpty

/-- C2: the code violates the single-poller invariant.  Starting the
poller for session B while session A's poller is active (here via two
`continueSession` success paths) arms a second interval without
clearing the first: both handles 0 and 1 are live afterwards, the
field only remembers handle 1, and `stopProgressMonitoring` then
leaves the orphaned timer 0 running. -/
theorem startProgressMonitoring_leaks_timer :
    (continueSessionSuccess "B" (continueSessionSuccess "A" initialMonitorState)).liveTimers
        = [0, 1] ∧
    (continueSessionSuccess "B" (continueSessionSuccess "A" initialMonitorState)).progressInterval
        = some 1 ∧
    (stopProgressMonitoring
        (continueSessionSuccess "B" (continueSessionSuccess "A" initialMonitorState))).liveTimers
        = [0] := by
  refine ⟨rfl, rfl, ?_⟩
  decide

/-- One entry of the durable local registry kept by
`AnalysisPersistence` (analysis.js lines 10-112).  The snapshot object
stored by `pollProgress`/`startAnalysis` is a flat spread of the
current form fields plus the bookkeeping fields below; the form
fields are gathered in `context`.  `results` holds the opaque cached
results payload (its JSON text), `none` when absent. -/
structure Snapshot where
  context : List (String × String)
  progress : Nat
  status : String
  current_step : Option String
  results : Option String
  lastSaved : Nat
deriving DecidableEq

/-- JS `Map.set` / object-keyed overwrite on an association list:
replaces the entry for the key in place, otherwise appends. -/
def storeSet {α : Type} : List (String × α) → String → α → List (String × α)
  | [], k, v => [(k, v)]
  | (k0, v0) :: rest, k, v =>
      if k0 = k then (k, v) :: rest else (k0, v0) :: storeSet rest k v

/-- JS `Map.get` on an association list. -/
def storeGet {α : Type} (l : List (String × α)) (k : String) : Option α :=
  (l.find? (fun p => p.1 == k)).map Prod.snd

/-- JS `Map.delete` on an association list. -/
def storeDelete {α : Type} (l : List (String × α)) (k : String) : List (String × α) :=
  l.filter (fun p => p.1 != k)

/-- Embedding of `AnalysisPersistence.saveSession(sessionId, data)`
(analysis.js lines 41-49): stores the given snapshot under the id,
stamping `lastSaved` with the current time and defaulting a falsy
`progress` to 0 (`data.progress || 0`). -/
def saveSession (store : List (String × Snapshot)) (sid : String)
    (snap : Snapshot) (now : Nat) : List (String × Snapshot) :=
  storeSet store sid
    { snap with
      lastSaved := now
      progress := if snap.progress = 0 then 0 else snap.progress }

/-- One JSON body returned by `GET /api/progress/{id}` as read by
`pollProgress` (analysis.js lines 1205-1239). -/
structure ProgressData where
  success : Bool
  percentage : Nat
  current_step : String
  completed : Bool
  results : Option String
deriving DecidableEq

/-- The snapshot object literal `pollProgress` builds for
`persistence.saveSession`: the current form fields spread first
(`...getFormData()`), then `progress` from the remote percentage,
`status` derived from the remote `completed` flag, and the remote
`current_step` and `results`.  Note that the context comes from the
live form, not from the previously cached snapshot, and that the poll
payload carries no `completed_steps` field at all. -/
def mergedSnapshot (form : List (String × String)) (d : ProgressData) : Snapshot :=
  { context := form
    progress := d.percentage
    status := if d.completed then "completed" else "running"
    current_step := some d.current_step
    results := d.results
    lastSaved := 0 }

/-- Everything one invocation of `pollProgress` does, in order:
`events` lists the synchronous UI effects of the tick,
`scheduledNext` records whether `setTimeout(pollProgress, 3000)` was
armed again, `autoSaveStopped` whether `stopAutoSave()` ran. -/
structure PollTickResult where
  events : List String
  store : List (String × Snapshot)
  isAnalysisRunning : Bool
  currentAnalysisId : Option String
  scheduledNext : Bool
  autoSaveStopped : Bool
deriving DecidableEq

/-- Embedding of `pollProgress()` (analysis.js lines 1205-1239).
`outcome` is the parsed poll response; `none` models a transport
failure (fetch/json threw).  A response with `success:false` throws
into the same `catch` handler.  On success the tick synchronously
updates the progress UI, then persists the merged snapshot; on
`completed` it renders the results, stops auto-save and clears the
running flag and current id; otherwise it re-arms the timeout only if
`isAnalysisRunning` still holds.  The `catch` handler alerts, stops
auto-save, clears the running flag and schedules nothing. -/
def pollProgressTick (now : Nat) (form : List (String × String))
    (store : List (String × Snapshot)) (isRunning : Bool)
    (cid : Option String) (outcome : Option ProgressData) : PollTickResult :=
  match cid with
  | none => ⟨[], store, isRunning, none, false, false⟩
  | some sid =>
      match outcome with
      | none =>
          ⟨["showAlert:error"], store, false, some sid, false, true⟩
      | some d =>
          if d.success then
            let store2 := saveSession store sid (mergedSnapshot form d) now
            if d.completed then
              ⟨["updateProgressUI", "saveSession", "showResults"],
                store2, false, none, false, true⟩
            else if isRunning then
              ⟨["updateProgressUI", "saveSession"], store2, true, some sid, true, false⟩
            else
              ⟨["updateProgressUI", "saveSession"], store2, false, some sid, false, false⟩
          else
            ⟨["showAlert:error"], store, false, some sid, false, true⟩

theorem storeGet_storeSet {α : Type} (store : List (String × α)) (k : String) (v : α) :
    storeGet (storeSet store k v) k = some v := by
  induction store with
  | nil => simp [storeSet, storeGet, List.find?]
  | cons hd tl ih =>
      by_cases h : hd.1 = k
      · simp [storeSet, storeGet, List.find?, h]
      · have hb : (hd.1 == k) = false := by simpa using h
        simpa [storeSet, storeGet, List.find?, h, hb] using ih

theorem saveSession_eq (store : List (String × Snapshot)) (sid : String)
    (snap : Snapshot) (now : Nat) :
    saveSession store sid snap now = storeSet store sid { snap with lastSaved := now } := by
  unfold saveSession
  congr 1
  split
  · next h => rw [← h]
  · rfl

/-- C4 counterexample: the poll-result merge does not preserve the
snapshot's cached context.  A session cached with context
`segmento=fitness` while the form currently reads `segmento=yoga`
gets its context overwritten by the live form value on the next poll
tick. -/
theorem pollProgress_context_not_preserved :
    (storeGet
        (pollProgressTick 7 [("segmento", "yoga")]
            [("s1", ⟨[("segmento", "fitness")], 10, "running", none, none, 3⟩)]
            true (some "s1") (some ⟨true, 40, "step2", false, none⟩)).store
        "s1").map Snapshot.context
      = some [("segmento", "yoga")] ∧
    [("segmento", "yoga")] ≠ [("segmento", "fitness")] := by
  refine ⟨?_, by decide⟩
  rfl

/-- C4 amended: on every successful poll tick — whatever the
`completed` flag and the running flag — the remote percentage
overwrites the cached progress, the merged snapshot's context is
rebuilt from the current form input (not copied from the previous
snapshot and not taken from the server, whose poll payload carries no
context and no completed-steps field), the merged snapshot is
persisted under the session id, and the progress UI event is emitted
synchronously within the tick, before persisting. -/
theorem pollProgress_merge_policy (now : Nat) (form : List (String × String))
    (store : List (String × Snapshot)) (isRunning : Bool) (sid : String)
    (d : ProgressData) (hs : d.success = true) :
    (pollProgressTick now form store isRunning (some sid) (some d)).store
      = storeSet store sid { mergedSnapshot form d with lastSaved := now } ∧
    (mergedSnapshot form d).progress = d.percentage ∧
    (mergedSnapshot form d).context = form ∧
    storeGet (pollProgressTick now form store isRunning (some sid) (some d)).store sid
      = some { mergedSnapshot form d with lastSaved := now } ∧
    (pollProgressTick now form store isRunning (some sid) (some d)).events.take 2
      = ["updateProgressUI", "saveSession"] := by
  have hstore : (pollProgressTick now form store isRunning (some sid) (some d)).store
      = storeSet store sid { mergedSnapshot form d with lastSaved := now } := by
    cases hc : d.completed <;> cases isRunning <;>
      simp [pollProgressTick, hs, hc, saveSession_eq]
  refine ⟨hstore, rfl, rfl, ?_, ?_⟩
  · rw [hstore]
    exact storeGet_storeSet store sid _
  · cases hc : d.completed <;> cases isRunning <;>
      simp [pollProgressTick, hs, hc]

theorem pollProgress_merge_policy_witness :
    (pollProgressTick 9 [("segmento", "yoga")] [] false (some "s1")
        (some ⟨true, 100, "done", true, some "R"⟩)).store
      = storeSet [] "s1"
          { mergedSnapshot [("segmento", "yoga")] ⟨true, 100, "done", true, some "R"⟩ with
            lastSaved := 9 } :=
  (pollProgress_merge_policy 9 [("segmento", "yoga")] [] false "s1"
      ⟨true, 100, "done", true, some "R"⟩ rfl).1

/-- C7 counterexample: in the `pollProgress` poller a transport
failure is fatal, not skipped.  With a running analysis on session s1,
a tick whose fetch throws emits an error alert, stops auto-save,
clears the running flag and schedules no further tick. -/
theorem pollProgress_transport_fatal :
    pollProgressTick 0 [] [] true (some "s1") none
      = ⟨["showAlert:error"], [], false, some "s1", false, true⟩ := rfl

/-- C7 amended: the interval-based poller of `ModernAnalysisSystem`
is transient-tolerant — a transport failure leaves its state entirely
unchanged (the interval stays armed, with no retry counter, so
polling continues with no retry cap) and it stops with an error
notification only when the server reply carries `success:false` with
an error message; the `setTimeout`-chain poller `pollProgress`,
however, treats any transport failure as fatal: it alerts, stops
auto-save, clears the running flag and does not schedule the next
tick. -/
theorem poll_transport_behavior (s : MonitorState) (e : String) :
    monitorTickFull s none = s ∧
    (monitorTickFull s (some ⟨true, false, none⟩)) = s ∧
    (monitorTickFull s (some ⟨false, false, some e⟩)).progressInterval = none ∧
    (pollProgressTick 0 [] [] true (some "s1") none).scheduledNext = false ∧
    (pollProgressTick 0 [] [] true (some "s1") none).isAnalysisRunning = false := by
  refine ⟨rfl, rfl, ?_, rfl, rfl⟩
  cases h : s.progressInterval <;>
    simp [monitorTickFull, stopProgressMonitoring, h]

/-- C8: the code evaluated at the failing input.  In the reachable
leaked-timer state left by the C2 defect (two `continueSession`
successes, A then B), a poll tick replying completed disarms only the
handle stored in `progressInterval` and clears the marker, but the
orphaned timer stays armed — a further tick can still fire for the
still-set current session (`canTick` is true).  When that orphaned
tick also replies completed, `stopProgressMonitoring` is a no-op (the
field is already null) and a second terminal completed notification is
appended: the claimed exactly-once guarantee fails. -/
theorem completed_tick_duplicate_notice :
    canTick (monitorTickFull
        (continueSessionSuccess "B" (continueSessionSuccess "A" initialMonitorState))
        (some ⟨true, true, none⟩)) = true ∧
    (monitorTickFull
        (continueSessionSuccess "B" (continueSessionSuccess "A" initialMonitorState))
        (some ⟨true, true, none⟩)).marker = none ∧
    (monitorTickFull (monitorTickFull
        (continueSessionSuccess "B" (continueSessionSuccess "A" initialMonitorState))
        (some ⟨true, true, none⟩)) (some ⟨true, true, none⟩)).notices
      = [("Sessão continuada com sucesso", "success"),
         ("Sessão continuada com sucesso", "success"),
         ("Análise concluída com sucesso!", "success"),
         ("Análise concluída com sucesso!", "success")] ∧
    (monitorTickFull (monitorTickFull
        (continueSessionSuccess "B" (continueSessionSuccess "A" initialMonitorState))
        (some ⟨true, true, none⟩)) (some ⟨true, true, none⟩)).currentSessionId
      = some "B" := by
  refine ⟨?_, rfl, rfl, rfl⟩
  decide

/-- The observable effects of `ModernAnalysisSystem.checkSessionStatus`
(analysis.js lines 843-879): whether it starts the progress poller,
shows the progress container, which control set it switches to, whether
it removes the `currentSessionId` localStorage item, and the
notification it emits. -/
structure RestoreOutcome where
  startsPolling : Bool
  showsProgress : Bool
  controls : Option String
  clearsMarker : Bool
  notice : Option (String × String)
deriving DecidableEq

/-- Embedding of `ModernAnalysisSystem.checkSessionStatus(sessionId)`
(analysis.js lines 843-879), the success path: the status request
returned a JSON body with the given `success` flag and
`session.status` string.  The switch has four cases; a `success:false`
body or an unknown status does nothing. -/
def checkSessionStatus (success : Bool) (status : String) : RestoreOutcome :=
  if success then
    if status = "running" then
      ⟨true, true, some "running", false,
        some ("Sessão anterior restaurada e em execução", "info")⟩
    else if status = "paused" then
      ⟨false, false, some "paused", false,
        some ("Sessão anterior encontrada (pausada)", "info")⟩
    else if status = "completed" then
      ⟨false, false, none, true, some ("Última sessão foi concluída", "success")⟩
    else if status = "error" then
      ⟨false, false, none, false, some ("Última sessão teve erro", "warning")⟩
    else ⟨false, false, none, false, none⟩
  else ⟨false, false, none, false, none⟩

/-- Embedding of the `catch` handler of `checkSessionStatus`: when the
status fetch itself throws, the error is logged and the
`currentSessionId` localStorage item is removed. -/
def checkSessionStatusFailure : RestoreOutcome :=
  ⟨false, false, none, true, none⟩

/-- Embedding of `ModernAnalysisSystem.restoreLastSession`
(analysis.js lines 832-841): reads the persisted `currentSessionId`
marker; when absent no status request is made (result `none`), when
present it awaits `checkSessionStatus` on that id. -/
def restoreLastSession (marker : Option String) (success : Bool)
    (status : String) : Option RestoreOutcome :=
  marker.map (fun _ => checkSessionStatus success status)

/-- C3 counterexample: on remote status `error` the reload-restore
procedure emits the warning but does not clear the last-active
marker — `localStorage.removeItem` is absent from the `error` case of
the switch. -/
theorem restoreLastSession_error_keeps_marker :
    restoreLastSession (some "s1") true "error"
      = some ⟨false, false, none, false,
          some ("Última sessão teve erro", "warning")⟩ ∧
    (checkSessionStatus true "error").clearsMarker = false := ⟨rfl, rfl⟩

/-- C3 amended: the reload-restore procedure reads the persisted
last-active id, does nothing when it is absent, and otherwise branches
on the fetched status: `running` starts polling, shows progress and
emits an informational restored notice; `paused` switches the controls
with no polling; `completed` clears the marker and emits success;
`error` emits a warning but leaves the marker in place — the marker is
cleared instead when the status request itself fails. -/
theorem restoreLastSession_branches (sid : String) :
    restoreLastSession none true "running" = none ∧
    restoreLastSession (some sid) true "running"
      = some ⟨true, true, some "running", false,
          some ("Sessão anterior restaurada e em execução", "info")⟩ ∧
    restoreLastSession (some sid) true "paused"
      = some ⟨false, false, some "paused", false,
          some ("Sessão anterior encontrada (pausada)", "info")⟩ ∧
    restoreLastSession (some sid) true "completed"
      = some ⟨false, false, none, true,
          some ("Última sessão foi concluída", "success")⟩ ∧
    restoreLastSession (some sid) true "error"
      = some ⟨false, false, none, false,
          some ("Última sessão teve erro", "warning")⟩ ∧
    checkSessionStatusFailure.clearsMarker = true := by
  exact ⟨rfl, rfl, rfl, rfl, rfl, rfl⟩

/-- JS truthiness of the cached `results` value as tested by
`continueAnalysis` (`sessionData.results`): absent (`undefined`) and
the empty string are falsy, any other payload text is truthy. -/
def resultsTruthy : Option String → Bool
  | none => false
  | some s => s != ""

/-- One JSON body returned by `GET /api/analysis_status/{id}` as read
by `checkAnalysisStatus`. -/
structure StatusResponse where
  success : Bool
  status : String
  progress : Nat
  current_step : Option String
  results : Option String
deriving DecidableEq

/-- The observable effects of `continueAnalysis`/`checkAnalysisStatus`:
how many network requests were issued, the results payload passed to
`showResults` (if any), whether polling (`pollProgress`) was started,
and the alert emitted. -/
structure ContinueOutcome where
  networkCalls : Nat
  rendered : Option String
  startedPolling : Bool
  alert : Option (String × String)
deriving DecidableEq

/-- Embedding of `checkAnalysisStatus(sessionId)` (analysis.js lines
1171-1203).  It issues exactly one status request; `resp = none`
models a transport failure.  On `status running` it starts auto-save
and polling; on `completed` it renders the returned results; any other
status persists a paused-style snapshot locally; `success:false`
throws into the catch, which alerts. -/
def checkAnalysisStatus (form : List (String × String))
    (store : List (String × Snapshot)) (sid : String) (now : Nat)
    (resp : Option StatusResponse) :
    ContinueOutcome × List (String × Snapshot) :=
  match resp with
  | none =>
      (⟨1, none, false, some ("Erro ao verificar status da análise", "error")⟩, store)
  | some d =>
      if d.success then
        if d.status = "running" then
          (⟨1, none, true, none⟩, store)
        else if d.status = "completed" then
          (⟨1, d.results, false, none⟩, store)
        else
          (⟨1, none, false, none⟩,
            saveSession store sid
              ⟨form, if d.progress = 0 then 0 else d.progress, d.status,
                d.current_step, d.results, 0⟩ now)
      else
        (⟨1, none, false, some ("Erro ao verificar status da análise", "error")⟩, store)

/-- Embedding of `continueAnalysis(sessionId)` (analysis.js lines
1273-1300).  It reads the cached snapshot from the local persistence
registry (no network); when absent it alerts and stops.  When the
cached snapshot has `progress === 100` and a truthy `results` it
renders the cached results directly and returns without any network
request; otherwise it defers to `checkAnalysisStatus`.  The DOM
form-restoration side effect is not part of the modelled outcome. -/
def continueAnalysis (form : List (String × String))
    (store : List (String × Snapshot)) (sid : String) (now : Nat)
    (resp : Option StatusResponse) :
    ContinueOutcome × List (String × Snapshot) :=
  match storeGet store sid with
  | none => (⟨0, none, false, some ("Sessão não encontrada", "error")⟩, store)
  | some snap =>
      if snap.progress = 100 && resultsTruthy snap.results then
        (⟨0, snap.results, false, none⟩, store)
      else
        checkAnalysisStatus form store sid now resp

theorem checkAnalysisStatus_networkCalls (form : List (String × String))
    (store : List (String × Snapshot)) (sid : String) (now : Nat)
    (resp : Option StatusResponse) :
    (checkAnalysisStatus form store sid now resp).1.networkCalls = 1 := by
  cases resp with
  | none => rfl
  | some d =>
      by_cases h1 : d.success <;> by_cases h2 : d.status = "running" <;>
        by_cases h3 : d.status = "completed" <;>
          simp [checkAnalysisStatus, h1, h2, h3]

/-- C5: invoking continue on a session whose cached snapshot is
completed (progress 100) renders the cached results with zero network
calls and no polling whenever a non-empty results payload is cached;
only when the results are not cached does it issue the (single) status
request to the gateway. -/
theorem continueAnalysis_cached_spec (form : List (String × String))
    (store : List (String × Snapshot)) (sid : String) (now : Nat)
    (resp : Option StatusResponse) (snap : Snapshot)
    (hget : storeGet store sid = some snap)
    (_hstat : snap.status = "completed") (hp : snap.progress = 100) :
    (resultsTruthy snap.results = true →
      continueAnalysis form store sid now resp
        = (⟨0, snap.results, false, none⟩, store)) ∧
    (resultsTruthy snap.results = false →
      (continueAnalysis form store sid now resp).1.networkCalls = 1) := by
  constructor
  · intro hr
    simp [continueAnalysis, hget, hp, hr]
  · intro hr
    simp [continueAnalysis, hget, hp, hr, checkAnalysisStatus_networkCalls]

theorem continueAnalysis_cached_spec_witness :
    continueAnalysis [] [("s1", ⟨[], 100, "completed", none, some "R", 0⟩)] "s1" 0 none
      = (⟨0, some "R", false, none⟩,
          [("s1", ⟨[], 100, "completed", none, some "R", 0⟩)]) :=
  (continueAnalysis_cached_spec [] [("s1", ⟨[], 100, "completed", none, some "R", 0⟩)]
      "s1" 0 none ⟨[], 100, "completed", none, some "R", 0⟩ rfl rfl rfl).1 rfl

/-- The observable effects of `ModernAnalysisSystem.deleteSession`:
gateway request count, the in-memory `this.sessions` map afterwards,
the durable persistence registry afterwards, and the notification. -/
structure SystemDeleteOutcome where
  networkCalls : Nat
  sessions : List (String × Snapshot)
  localStore : List (String × Snapshot)
  notice : Option (String × String)
deriving DecidableEq

/-- Embedding of `ModernAnalysisSystem.deleteSession(sessionId)`
(analysis.js lines 924-947).  After the confirm dialog it issues one
`DELETE /api/sessions/{id}` request; `gateway = none` models a
transport failure, `some b` a JSON reply with `success = b`.  Only a
`success:true` reply removes the entry from the in-memory sessions
map; a failure alerts and changes nothing.  The durable persistence
registry (`localStorage`) is never touched by this method. -/
def systemDeleteSession (confirmed : Bool)
    (sessions localStore : List (String × Snapshot)) (sid : String)
    (gateway : Option Bool) : SystemDeleteOutcome :=
  if confirmed then
    match gateway with
    | none => ⟨1, sessions, localStore, some ("Erro ao excluir", "error")⟩
    | some true =>
        ⟨1, storeDelete sessions sid, localStore,
          some ("Sessão excluída com sucesso", "success")⟩
    | some false => ⟨1, sessions, localStore, some ("Erro ao excluir", "error")⟩
  else ⟨0, sessions, localStore, none⟩

/-- Embedding of `deleteAnalysis(sessionId)` (analysis.js lines
1302-1307): after the confirm dialog it calls
`persistence.deleteSession` on the durable registry and alerts
success — it performs no network request at all.  Result: (number of
gateway requests, registry afterwards, alert). -/
def deleteAnalysis (confirmed : Bool) (localStore : List (String × Snapshot))
    (sid : String) : Nat × List (String × Snapshot) × Option (String × String) :=
  if confirmed then
    (0, storeDelete localStore sid, some ("Análise excluída com sucesso", "success"))
  else (0, localStore, none)

/-- C6 counterexample: the delete entry point that operates on the
Local Session Store, `deleteAnalysis`, removes the cached entry for
the id unconditionally and issues zero gateway requests — contrary to
the claim that every delete calls the gateway and removes locally only
on gateway success. -/
theorem deleteAnalysis_removes_without_gateway :
    deleteAnalysis true [("s1", ⟨[], 50, "running", none, none, 0⟩)] "s1"
      = (0, [], some ("Análise excluída com sucesso", "success")) := by
  decide

/-- C6 amended: there are two delete paths. The class method
`ModernAnalysisSystem.deleteSession` issues one gateway delete and
removes the session from its in-memory map only on a `success:true`
reply — a `success:false` reply (or a transport failure) leaves both
the in-memory map and the durable store unchanged; the durable store
is never touched by this method.  The Local Session Store path
`deleteAnalysis`, by contrast, removes the durable entry
unconditionally after user confirmation, with zero gateway calls. -/
theorem delete_paths_spec (sessions localStore : List (String × Snapshot))
    (sid : String) :
    systemDeleteSession true sessions localStore sid (some false)
      = ⟨1, sessions, localStore, some ("Erro ao excluir", "error")⟩ ∧
    systemDeleteSession true sessions localStore sid none
      = ⟨1, sessions, localStore, some ("Erro ao excluir", "error")⟩ ∧
    systemDeleteSession true sessions localStore sid (some true)
      = ⟨1, storeDelete sessions sid, localStore,
          some ("Sessão excluída com sucesso", "success")⟩ ∧
    deleteAnalysis true localStore sid
      = (0, storeDelete localStore sid,
          some ("Análise excluída com sucesso", "success")) := by
  exact ⟨rfl, rfl, rfl, rfl⟩

/-- Embedding of the fresh session id built by `getSessionId`
(src/src/static/js/main.js lines 158-167 and
src/src/static/js/upload.js lines 366-375): a template literal from
the current time and a random suffix. -/
def freshSessionId (now : Nat) (rand : String) : String :=
  "session_" ++ toString now ++ "_" ++ rand

/-- Embedding of `getSessionId()`: reads the `arqv30_session_id`
sessionStorage item (a string, or `none` when absent); when the read
value is falsy (absent or empty) it generates a fresh id, stores it
and returns it, otherwise it returns the stored value untouched.  The
result pairs the returned id with the storage state afterwards. -/
def getSessionId (storage : Option String) (now : Nat) (rand : String) :
    String × Option String :=
  match storage with
  | none => (freshSessionId now rand, some (freshSessionId now rand))
  | some s =>
      if s = "" then (freshSessionId now rand, some (freshSessionId now rand))
      else (s, some s)

theorem freshSessionId_ne_empty (now : Nat) (rand : String) :
    freshSessionId now rand ≠ "" := by
  intro h
  have := congrArg String.length h
  simp [freshSessionId, String.length_append] at this
  exact absurd this.1.1.1 (by decide)

/-- C9: `getSessionId` is idempotent over the session storage — the
first call with no stored id generates and stores a fresh id, a call
with a non-empty stored id returns it without modifying storage, and
two consecutive calls (whatever the starting storage and however the
generator inputs differ between the calls) return equal ids and leave
the storage of the first call untouched. -/
theorem getSessionId_idempotent (storage : Option String) (n1 n2 : Nat)
    (r1 r2 : String) :
    getSessionId none n1 r1
      = (freshSessionId n1 r1, some (freshSessionId n1 r1)) ∧
    (∀ s : String, s ≠ "" → getSessionId (some s) n2 r2 = (s, some s)) ∧
    (getSessionId (getSessionId storage n1 r1).2 n2 r2).1
      = (getSessionId storage n1 r1).1 ∧
    (getSessionId (getSessionId storage n1 r1).2 n2 r2).2
      = (getSessionId storage n1 r1).2 := by
  refine ⟨rfl, fun s hs => by simp [getSessionId, hs], ?_, ?_⟩ <;>
    · rcases storage with _ | s
      · simp [getSessionId, freshSessionId_ne_empty n1 r1]
      · by_cases hs : s = "" <;>
          simp [getSessionId, hs, freshSessionId_ne_empty n1 r1]

theorem getSessionId_idempotent_witness :
    getSessionId (some "abc") 5 "xyz" = ("abc", some "abc") :=
  (getSessionId_idempotent (some "abc") 5 5 "xyz" "xyz").2.1 "abc" (by decide)
